import Mathlib

/-!
Verification of the personai-assistant email ingestion pipeline.

Shallow embedding of the repository's core modules:
* `database.js` (new schema): `storeEmail`, `getEmailById`, `countEmails`,
  `needsMigration`, `migrateSchema`
* `state-manager.js`: `INITIAL_STATE`, `validateState`, `updateState`,
  `writeStateAtomic`
* `email-processor.js`: `validateEmailRecord`, `processEmail`
* `imap-monitor.js`: the `mail` event handler loop
* `webhook-server.js`: `REQUIRED_FIELDS`, `validatePayload`, `handleWebhookPost`

JavaScript objects whose fields may be `undefined`/`null` are embedded with
`Option String` fields; the SQLite `emails` table is a list of rows in
insertion order; fallible operations return `Except String`.
-/

namespace Personai

/-- An email value as it flows through the program before storage: a JS object
whose ten fields may each be absent (`none` models `undefined`/`null`). -/
structure Email where
  id            : Option String
  thread_id     : Option String
  received_at   : Option String
  downloaded_at : Option String
  from_address  : Option String
  to_address    : Option String
  cc_address    : Option String
  subject       : Option String
  labels        : Option String
  body          : Option String
  deriving Repr, DecidableEq

/-- A persisted row of the `emails` table (new schema from `database.js`):
every column is `TEXT NOT NULL` except the nullable `cc_address`. -/
structure EmailRow where
  id            : String
  thread_id     : String
  received_at   : String
  downloaded_at : String
  from_address  : String
  to_address    : String
  cc_address    : Option String
  subject       : String
  labels        : String
  body          : String
  deriving Repr, DecidableEq

/-- Error text used by the model for a binding/constraint failure inside
`storeEmail` (a `NOT NULL` column bound to an absent value). -/
def insertFailedMsg : String := "Email insertion failed"

/-- The row that `storeEmail` inserts for an email whose `NOT NULL` bindings
are all present: fields are copied verbatim except
`thread_id`, which the source defaults with `email.thread_id || ''`. -/
def insertedRow (i ra da fa ta : String) (cc : Option String)
    (s l b : String) (tid : Option String) : EmailRow :=
  { id := i
    thread_id := tid.getD ("")
    received_at := ra
    downloaded_at := da
    from_address := fa
    to_address := ta
    cc_address := cc
    subject := s
    labels := l
    body := b }

/-- `storeEmail(db, email)` from `database.js` (new schema): a point lookup on
`id` first (returning `false` for a duplicate with no write), then an
`INSERT` of all ten columns (returning `true`).  Binding an absent value to a
`NOT NULL` column makes the statement throw, which the source rethrows as an
insertion-failed error. -/
def storeEmail (db : List EmailRow) (e : Email) :
    Except String (Bool × List EmailRow) :=
  match e.id with
  | none => Except.error (insertFailedMsg)
  | some i =>
    if db.any (fun r => r.id = i) then
      Except.ok (false, db)
    else
      match e.received_at, e.downloaded_at, e.from_address, e.to_address,
            e.subject, e.labels, e.body with
      | some ra, some da, some fa, some ta, some s, some l, some b =>
        Except.ok (true, db ++ [insertedRow i ra da fa ta e.cc_address s l b e.thread_id])
      | _, _, _, _, _, _, _ => Except.error (insertFailedMsg)

/-- `getEmailById(db, id)`: `SELECT * FROM emails WHERE id = ?` returning the
first matching row or `null`. -/
def getEmailById (db : List EmailRow) (i : String) : Option EmailRow :=
  db.find? (fun r => r.id = i)

/-- `countEmails(db)`: `SELECT COUNT(*) FROM emails`. -/
def countEmails (db : List EmailRow) : Nat := db.length

/-- All seven `NOT NULL`-bound fields (beyond `id`) are present, so the
`INSERT` in `storeEmail` cannot throw. -/
def storeBindable (e : Email) : Bool :=
  e.received_at.isSome && e.downloaded_at.isSome && e.from_address.isSome &&
  e.to_address.isSome && e.subject.isSome && e.labels.isSome && e.body.isSome

/-! ## State manager (`state-manager.js`) -/

/-- The persisted state record.  The five fields of `INITIAL_STATE` are always
present; `last_id` and `last_id_received_at` are extra keys that
`processEmail` merges in (the JSON object gains them on the first successful
store), so they are embedded as `Option`s. -/
structure StateRec where
  last_uid : Int
  last_uid_received_at : String
  last_connected_at : String
  last_error : Option String
  connection_status : String
  last_id : Option String
  last_id_received_at : Option String
  deriving Repr, DecidableEq

/-- Sentinel first-run state (`INITIAL_STATE` in `state-manager.js`). -/
def INITIAL_STATE : StateRec :=
  { last_uid := 0
    last_uid_received_at := "1970-01-01T00:00:00.000Z"
    last_connected_at := "1970-01-01T00:00:00.000Z"
    last_error := none
    connection_status := "disconnected"
    last_id := none
    last_id_received_at := none }

/-- A partial-fields argument to `updateState`: `none` means the key is not
in the `updates` object.  `last_error` can be set to `null`, hence the
nested `Option`.  The program only ever sets `last_id` and
`last_id_received_at` to strings. -/
structure StateUpdates where
  last_uid : Option Int
  last_uid_received_at : Option String
  last_connected_at : Option String
  last_error : Option (Option String)
  connection_status : Option String
  last_id : Option String
  last_id_received_at : Option String
  deriving Repr, DecidableEq

/-- The no-op updates object `{}`. -/
def noUpdates : StateUpdates :=
  { last_uid := none, last_uid_received_at := none, last_connected_at := none
    last_error := none, connection_status := none, last_id := none
    last_id_received_at := none }

/-- The JS spread `{...currentState, ...updates}`: every key present in
`updates` overrides the current record, every other key is kept. -/
def mergeState (s : StateRec) (u : StateUpdates) : StateRec :=
  { last_uid := u.last_uid.getD s.last_uid
    last_uid_received_at := u.last_uid_received_at.getD s.last_uid_received_at
    last_connected_at := u.last_connected_at.getD s.last_connected_at
    last_error := u.last_error.getD s.last_error
    connection_status := u.connection_status.getD s.connection_status
    last_id := match u.last_id with | some v => some v | none => s.last_id
    last_id_received_at :=
      match u.last_id_received_at with
      | some v => some v
      | none => s.last_id_received_at }

/-- The valid `connection_status` enum values checked by `validateState`. -/
def validStatuses : List String := ["connected", "reconnecting", "disconnected"]

/-- Error texts of the model's `validateState` failures. -/
def lastUidErr : String := "last_uid must be a non-negative integer"

/-- `connection_status` enum failure text. -/
def statusErr : String := "connection_status must be one of the valid statuses"

/-- timestamp-field failure text. -/
def timestampErr : String := "timestamp field must be a valid ISO 8601 string"

/-- `validateState(state)` from `state-manager.js`.  In the record embedding
the five required keys are always present and `last_error` is always a
string or null, so the checks that remain are: `last_uid` a non-negative
integer, `connection_status` in the enum, and the two timestamp strings
non-empty (the source's falsiness test rejects the empty string). -/
def validateState (s : StateRec) : Except String Unit :=
  if s.last_uid < 0 then Except.error (lastUidErr)
  else if ¬ (validStatuses.contains s.connection_status) then
    Except.error (statusErr)
  else if s.last_uid_received_at = "" then Except.error (timestampErr)
  else if s.last_connected_at = "" then Except.error (timestampErr)
  else Except.ok ()

/-- The in-memory part of `updateState`: validate the current record (as
`readState` does), merge the updates over it, validate the merged record. -/
def updateStateE (s : StateRec) (u : StateUpdates) : Except String StateRec :=
  match validateState s with
  | Except.error e => Except.error e
  | Except.ok _ =>
    let m := mergeState s u
    match validateState m with
    | Except.error e => Except.error e
    | Except.ok _ => Except.ok m

/-- The on-disk files `writeStateAtomic` touches: the state file itself and
its `.tmp` sibling, each either absent or holding one serialized record
(serialization is injective on these records, so contents are embedded as
the records themselves). -/
structure StateFs where
  mainFile : Option StateRec
  tempFile : Option StateRec
  deriving Repr, DecidableEq

/-- `writeStateAtomic` with a crash injection point: `0` = crash before the
temp file is written; `1` = crash after `writeFileSync(tempPath)` but before
`renameSync`; `2` or more = the write completes (the rename atomically
replaces the state file and removes the temp path). -/
def writeStateAtomicAt (fs : StateFs) (st : StateRec) (crashPoint : Nat) :
    StateFs :=
  if crashPoint = 0 then fs
  else if crashPoint = 1 then { fs with tempFile := some st }
  else { mainFile := some st, tempFile := none }

/-- `updateState(stateFilePath, updates)` over the file model: read the
current record (a missing or invalid file throws, leaving the files
untouched), merge and validate, then write atomically; `crashPoint` injects
a crash inside the final write. -/
def updateStateFs (fs : StateFs) (u : StateUpdates) (crashPoint : Nat) :
    StateFs :=
  match fs.mainFile with
  | none => fs
  | some s =>
    match updateStateE s u with
    | Except.error _ => fs
    | Except.ok m => writeStateAtomicAt fs m crashPoint

/-! ## JSON array recognizer

`validateEmailRecord` runs `JSON.parse(email.labels)` and then
`Array.isArray` on the result.  The recognizer below embeds that check: a
fuel-indexed recursive descent over the JSON value grammar (whitespace,
strings with escapes, numbers, literals, arrays, objects), accepting exactly
when the whole string parses and the top-level value is an array. -/

/-- JSON insignificant whitespace. -/
def jsonIsWs (c : Char) : Bool :=
  c = ' ' || c = '\t' || c = '\n' || c = '\r'

/-- Drop leading JSON whitespace. -/
def jsonSkipWs : List Char → List Char
  | [] => []
  | c :: cs => if jsonIsWs c then jsonSkipWs cs else c :: cs

/-- Hexadecimal digit (for `\uXXXX` escapes). -/
def jsonIsHex (c : Char) : Bool :=
  c.isDigit || ('a' ≤ c && c ≤ 'f') || ('A' ≤ c && c ≤ 'F')

/-- Rest of a JSON string after its opening quote; returns the unconsumed
input past the closing quote. -/
def jsonStr : List Char → Option (List Char)
  | [] => none
  | c :: cs =>
    if c = '"' then some cs
    else if c = '\\' then
      match cs with
      | [] => none
      | e :: cs2 =>
        if e = 'u' then
          match cs2 with
          | h1 :: h2 :: h3 :: h4 :: cs3 =>
            if jsonIsHex h1 && jsonIsHex h2 && jsonIsHex h3 && jsonIsHex h4 then
              jsonStr cs3
            else none
          | _ => none
        else if e = '"' || e = '\\' || e = '/' || e = 'b' || e = 'f' ||
                e = 'n' || e = 'r' || e = 't' then
          jsonStr cs2
        else none
    else if c.val < 32 then none
    else jsonStr cs

/-- One-or-more digits. -/
def jsonDigits : List Char → Option (List Char)
  | [] => none
  | c :: cs => if c.isDigit then some (cs.dropWhile Char.isDigit) else none

/-- JSON integer part (no leading zeros except a lone `0`). -/
def jsonIntPart : List Char → Option (List Char)
  | [] => none
  | c :: cs =>
    if c = '0' then some cs
    else if c.isDigit then some (cs.dropWhile Char.isDigit)
    else none

/-- Optional fraction part. -/
def jsonFracPart (cs : List Char) : Option (List Char) :=
  match cs with
  | c :: cs2 => if c = '.' then jsonDigits cs2 else some cs
  | [] => some cs

/-- Optional exponent part. -/
def jsonExpPart (cs : List Char) : Option (List Char) :=
  match cs with
  | c :: cs2 =>
    if c = 'e' || c = 'E' then
      match cs2 with
      | s :: cs3 => if s = '+' || s = '-' then jsonDigits cs3 else jsonDigits cs2
      | [] => none
    else some cs
  | [] => some cs

/-- A JSON number. -/
def jsonNumber (cs : List Char) : Option (List Char) :=
  let cs1 := match cs with
    | c :: r => if c = '-' then r else cs
    | [] => cs
  match jsonIntPart cs1 with
  | none => none
  | some cs2 =>
    match jsonFracPart cs2 with
    | none => none
    | some cs3 => jsonExpPart cs3

mutual

/-- A JSON value (fuel-indexed). -/
def jsonVal : Nat → List Char → Option (List Char)
  | 0, _ => none
  | fuel + 1, cs =>
    match jsonSkipWs cs with
    | [] => none
    | c :: rest =>
      if c = '"' then jsonStr rest
      else if c = '[' then jsonArrTail fuel rest
      else if c = '{' then jsonObjTail fuel rest
      else if c = 't' then
        match rest with
        | 'r' :: 'u' :: 'e' :: r => some r
        | _ => none
      else if c = 'f' then
        match rest with
        | 'a' :: 'l' :: 's' :: 'e' :: r => some r
        | _ => none
      else if c = 'n' then
        match rest with
        | 'u' :: 'l' :: 'l' :: r => some r
        | _ => none
      else jsonNumber (c :: rest)

/-- Array elements after the opening `[`. -/
def jsonArrTail : Nat → List Char → Option (List Char)
  | 0, _ => none
  | fuel + 1, cs =>
    match jsonSkipWs cs with
    | c :: rest =>
      if c = ']' then some rest
      else
        match jsonVal fuel cs with
        | none => none
        | some rest2 =>
          match jsonSkipWs rest2 with
          | c2 :: rest3 =>
            if c2 = ',' then jsonArrTail fuel rest3
            else if c2 = ']' then some rest3
            else none
          | [] => none
    | [] => none

/-- Object members after the opening `{`. -/
def jsonObjTail : Nat → List Char → Option (List Char)
  | 0, _ => none
  | fuel + 1, cs =>
    match jsonSkipWs cs with
    | c :: rest =>
      if c = '}' then some rest
      else jsonObjMembers fuel (c :: rest)
    | [] => none

/-- One or more `"key": value` members. -/
def jsonObjMembers : Nat → List Char → Option (List Char)
  | 0, _ => none
  | fuel + 1, cs =>
    match cs with
    | c :: rest =>
      if c = '"' then
        match jsonStr rest with
        | none => none
        | some rest2 =>
          match jsonSkipWs rest2 with
          | c2 :: rest3 =>
            if c2 = ':' then
              match jsonVal fuel rest3 with
              | none => none
              | some rest4 =>
                match jsonSkipWs rest4 with
                | c3 :: rest5 =>
                  if c3 = ',' then jsonObjMembers fuel (jsonSkipWs rest5)
                  else if c3 = '}' then some rest5
                  else none
                | [] => none
            else none
          | [] => none
      else none
    | [] => none

end

/-- `Array.isArray(JSON.parse(s))` does not throw and returns `true`: the
whole string is one JSON value (allowing surrounding whitespace) whose
top-level constructor is an array. -/
def isJsonArrayString (s : String) : Bool :=
  let cs := s.toList
  match jsonSkipWs cs with
  | c :: _ =>
    if c = '[' then
      match jsonVal (2 * cs.length + 4) cs with
      | some rest => (jsonSkipWs rest).isEmpty
      | none => false
    else false
  | [] => false

/-! ## Email processor (`email-processor.js`) -/

/-- `id must be a non-empty string`. -/
def idErr : String := "id must be a non-empty string"

/-- `from_address is required`. -/
def fromErr : String := "from_address is required"

/-- `to_address is required`. -/
def toErr : String := "to_address is required"

/-- `labels must be valid JSON array string`. -/
def labelsErr : String := "labels must be valid JSON array string"

/-- `received_at must be ISO 8601 format`. -/
def receivedAtErr : String := "received_at must be ISO 8601 format"

/-- `downloaded_at must be ISO 8601 format`. -/
def downloadedAtErr : String := "downloaded_at must be ISO 8601 format"

/-- `validateEmailRecord(email)` from `email-processor.js`: rejects a
missing/empty `id`, `from_address` or `to_address`, defaults a missing
`thread_id`/`subject`/`body` to the empty string and a falsy `labels` to
`'[]'`, requires a truthy `labels` to be a JSON array string, and requires
non-empty `received_at`/`downloaded_at`; returns the (mutated) record. -/
def validateEmailRecord (e : Email) : Except String Email :=
  match e.id with
  | none => Except.error (idErr)
  | some i =>
    if i = "" then Except.error (idErr)
    else
      let tid : Option String := some ((e.thread_id).getD (""))
      match e.from_address with
      | none => Except.error (fromErr)
      | some fa =>
        if fa = "" then Except.error (fromErr)
        else
          match e.to_address with
          | none => Except.error (toErr)
          | some ta =>
            if ta = "" then Except.error (toErr)
            else
              let subj : Option String := some ((e.subject).getD (""))
              let bod : Option String := some ((e.body).getD (""))
              let lres : Except String (Option String) :=
                match e.labels with
                | some l =>
                  if l = "" then Except.ok (some ("[]"))
                  else if isJsonArrayString l then Except.ok (some l)
                  else Except.error (labelsErr)
                | none => Except.ok (some ("[]"))
              match lres with
              | Except.error m => Except.error m
              | Except.ok lab =>
                match e.received_at with
                | none => Except.error (receivedAtErr)
                | some ra =>
                  if ra = "" then Except.error (receivedAtErr)
                  else
                    match e.downloaded_at with
                    | none => Except.error (downloadedAtErr)
                    | some da =>
                      if da = "" then Except.error (downloadedAtErr)
                      else
                        Except.ok { e with
                          thread_id := tid, subject := subj,
                          body := bod, labels := lab }

/-- The `updateState` argument built by `processEmail` on a stored message:
`{last_id: emailRecord.id, last_id_received_at: emailRecord.downloaded_at,
last_error: null}`. -/
def procUpdates (r : Email) : StateUpdates :=
  { last_uid := none, last_uid_received_at := none, last_connected_at := none
    last_error := some none, connection_status := none, last_id := r.id
    last_id_received_at := r.downloaded_at }

/-- `processEmail` from `email-processor.js` over one message.  `fetchRes` is
the outcome of `fetchEmail` (the IMAP fetch plus mailparser normalization, a
potentially-failing I/O boundary); `storeFails` injects a storage-layer
throw from `storeEmail`.  Every failure is caught and yields `false` with no
other effect; only a newly stored message updates the state file. -/
def processEmail (db : List EmailRow) (st : StateRec)
    (fetchRes : Except Unit Email) (storeFails : Bool) :
    Bool × List EmailRow × StateRec :=
  match fetchRes with
  | Except.error _ => (false, db, st)
  | Except.ok raw =>
    match validateEmailRecord raw with
    | Except.error _ => (false, db, st)
    | Except.ok r =>
      if storeFails then (false, db, st)
      else
        match storeEmail db r with
        | Except.error _ => (false, db, st)
        | Except.ok (false, db') => (false, db', st)
        | Except.ok (true, db') =>
          match updateStateE st (procUpdates r) with
          | Except.ok st' => (true, db', st')
          | Except.error _ => (false, db', st)

/-! ## Mail-event handler (`imap-monitor.js`) -/

/-- The per-uid loop of the `mail` handler: each candidate goes through
`processEmail` (whose own catch already prevents a throw) and processing
always continues with the next candidate. -/
def processBatch : List EmailRow → StateRec →
    List (Except Unit Email × Bool) → List EmailRow × StateRec
  | db, st, [] => (db, st)
  | db, st, (f, sf) :: rest =>
    let out := processEmail db st f sf
    processBatch out.2.1 out.2.2 rest

/-- The `mail` event handler in `imap-monitor.js`: search `['ALL']` (the
`uids` argument is the search result), read the state file (a read/validate
failure is caught by the outer handler and nothing is processed), keep the
uids greater than `state.last_uid`, and process each in order. -/
def mailHandler (db : List EmailRow) (st : StateRec) (uids : List Int)
    (fetch : Int → Except Unit Email) (storeFails : Int → Bool) :
    List EmailRow × StateRec :=
  match validateState st with
  | Except.error _ => (db, st)
  | Except.ok _ =>
    let newUids := uids.filter (fun u => decide (st.last_uid < u))
    processBatch db st (newUids.map (fun u => (fetch u, storeFails u)))

/-! ## Webhook server (`webhook-server.js`) -/

/-- `REQUIRED_FIELDS` from `webhook-server.js`, verbatim: note that
`to_address` and `labels` are absent from this list. -/
def REQUIRED_FIELDS : List String :=
  ["id", "thread_id", "received_at", "downloaded_at", "from_address",
   "subject", "body"]

/-- Look a payload key up by name (the payload object's ten known keys;
any other name reads as `undefined`). -/
def getField (p : Email) (name : String) : Option String :=
  if name = "id" then p.id
  else if name = "thread_id" then p.thread_id
  else if name = "received_at" then p.received_at
  else if name = "downloaded_at" then p.downloaded_at
  else if name = "from_address" then p.from_address
  else if name = "to_address" then p.to_address
  else if name = "cc_address" then p.cc_address
  else if name = "subject" then p.subject
  else if name = "labels" then p.labels
  else if name = "body" then p.body
  else none

/-- The missing-field test inside `validatePayload`: absent, `null`,
`undefined`, or a string that is empty after trimming
(`value.trim() === ''` holds exactly when every character is whitespace). -/
def isMissingVal (o : Option String) : Bool :=
  match o with
  | none => true
  | some s => s.toList.all Char.isWhitespace

/-- The required fields a payload is missing. -/
def missingFields (p : Email) : List String :=
  REQUIRED_FIELDS.filter (fun f => isMissingVal (getField p f))

/-- Outcome of `validatePayload` (the subsequent per-field `typeof` loop is
vacuous in this embedding, where every present value is a string). -/
inductive PayloadValidation
  | valid
  | invalid (missing : List String)
  deriving Repr, DecidableEq

/-- `validatePayload(payload)` from `webhook-server.js`. -/
def validatePayload (p : Email) : PayloadValidation :=
  let m := missingFields p
  if m.isEmpty then PayloadValidation.valid else PayloadValidation.invalid m

/-- `VALIDATION_ERROR` classification code. -/
def validationErrCode : String := "VALIDATION_ERROR"

/-- `DATABASE_ERROR` classification code. -/
def databaseErrCode : String := "DATABASE_ERROR"

/-- The `stored` action string. -/
def storedAction : String := "stored"

/-- The `skipped` action string. -/
def skippedAction : String := "skipped"

/-- The substring tested to recognize a duplicate-id race
(`UNIQUE constraint failed`). -/
def uniqueConstraintMsg : String := "UNIQUE constraint failed"

/-- Substring scan over character lists (for `msg.includes(pat)`). -/
def containsSubList (pat : List Char) : List Char → Bool
  | [] => pat.isEmpty
  | c :: cs => pat.isPrefixOf (c :: cs) || containsSubList pat cs

/-- `msg.includes(pat)`. -/
def msgContains (msg pat : String) : Bool :=
  containsSubList pat.toList msg.toList

/-- A webhook response body: `{status:'success', action, id}` or
`{status:'error', code}` (paired with the HTTP status code). -/
inductive WebhookResponse
  | success (action : String) (id : Option String)
  | failure (code : String)
  deriving Repr, DecidableEq

/-- `payload.id || null`: the id echo of the response. -/
def jsIdEcho (o : Option String) : Option String :=
  match o with
  | some s => if s = "" then none else some s
  | none => none

/-- `handleWebhookPost` from `webhook-server.js`, after the HTTP framing
(content-type, size and JSON-parse steps) has produced a payload object:
validate (`400 VALIDATION_ERROR` on failure), then `storeEmail`; a thrown
insert is re-classified as a duplicate only when its message mentions the
UNIQUE constraint, otherwise it is a `500 DATABASE_ERROR`; both `stored`
and `skipped` answer `200` with the echoed id. -/
def handleWebhookPost (db : List EmailRow) (p : Email) :
    (Nat × WebhookResponse) × List EmailRow :=
  match validatePayload p with
  | PayloadValidation.invalid _ =>
    ((400, WebhookResponse.failure (validationErrCode)), db)
  | PayloadValidation.valid =>
    match storeEmail db p with
    | Except.ok (wasStored, db') =>
      ((200, WebhookResponse.success
        (if wasStored then storedAction else skippedAction)
        (jsIdEcho p.id)), db')
    | Except.error msg =>
      if msgContains msg uniqueConstraintMsg then
        ((200, WebhookResponse.success (skippedAction) (jsIdEcho p.id)), db)
      else
        ((500, WebhookResponse.failure (databaseErrCode)), db)

/-! ## Schema migration (`database.js`) -/

/-- What `needsMigration` inspects: whether an `emails` table exists, the
declared type of its `id` column, and whether a `thread_id` column exists. -/
structure TableInfo where
  tableExists : Bool
  idType : String
  hasThreadId : Bool
  deriving Repr, DecidableEq

/-- `needsMigration(db)`: an existing `emails` table whose `id` column is
`INTEGER` and which has no `thread_id` column. -/
def needsMigration (t : TableInfo) : Bool :=
  t.tableExists && (t.idType == "INTEGER") && !t.hasThreadId

/-- A row of the pre-migration `emails` table targeted by `migrateSchema`'s
`INSERT ... SELECT`: an `INTEGER` id, no `thread_id`, and the other eight
columns. -/
structure OldRow where
  id : Int
  received_at : String
  downloaded_at : String
  from_address : String
  to_address : String
  cc_address : Option String
  subject : String
  labels : String
  body : String
  deriving Repr, DecidableEq

/-- One migrated row: `CAST(id AS TEXT)`, `'' as thread_id`, all other
columns copied verbatim. -/
def convertRow (r : OldRow) : EmailRow :=
  { id := toString r.id
    thread_id := ""
    received_at := r.received_at
    downloaded_at := r.downloaded_at
    from_address := r.from_address
    to_address := r.to_address
    cc_address := r.cc_address
    subject := r.subject
    labels := r.labels
    body := r.body }

/-- The database layout `migrateSchema` leaves behind: either the original
`emails` table (with a possibly committed stray `emails_new`), or the new
layout after `DROP`/`RENAME`. -/
inductive MigLayout
  | oldSchema (rows : List OldRow) (stray : Option (List EmailRow))
  | newSchema (rows : List EmailRow)
  deriving Repr, DecidableEq

/-- `Schema migration failed` error text. -/
def migrationFailedMsg : String := "Schema migration failed"

/-- `migrateSchema(db)` with a failure-injection oracle over its four
sequential effectful stages, each mapped to the source:
stage 1 = the first transaction (`CREATE TABLE emails_new` +
`INSERT ... SELECT` + `COMMIT`), atomic, so its failure leaves nothing;
stage 2 = the post-commit `COUNT` query / parity validation;
stage 3 = the second transaction (`DROP TABLE emails` +
`ALTER TABLE emails_new RENAME TO emails`), atomic via the `ROLLBACK` in the
catch handler;
stage 4 = the index recreation (`CREATE INDEX ...`), which runs after the
replacement has committed.
On any failure the function throws (startup aborts). -/
def migrateSchemaRun (old : List OldRow) (failAt : Option Nat) :
    Except String Unit × MigLayout :=
  if failAt = some 1 then
    (Except.error (migrationFailedMsg), MigLayout.oldSchema old none)
  else
    let newRows := old.map convertRow
    if failAt = some 2 then
      (Except.error (migrationFailedMsg), MigLayout.oldSchema old (some newRows))
    else if old.length ≠ newRows.length then
      (Except.error (migrationFailedMsg), MigLayout.oldSchema old (some newRows))
    else if failAt = some 3 then
      (Except.error (migrationFailedMsg), MigLayout.oldSchema old (some newRows))
    else if failAt = some 4 then
      (Except.error (migrationFailedMsg), MigLayout.newSchema newRows)
    else
      (Except.ok (), MigLayout.newSchema newRows)

/-! ## Reconnection backoff

The repository has no reconnection implementation under `src/`: the
`error`/`end` handlers in `imap-monitor.js` are stubs reading
`Will be handled by reconnection logic in Phase 4`, and the quickstart's
Phase-4 tasks (the backoff manager, the `reconnect()` method and the
`connection_status` transitions, tasks T020–T028) are unchecked.  The
definitions below are therefore modelled from the spec. -/

/-- Modelled from the spec: the missing backoff manager's delay schedule —
successive reconnect attempt delays `1s, 2s, 4s, 8s`, then clamped at `60s`
for every later attempt, with no upper bound on the attempt count
(`reconnectDelayMs n` is defined for every `n`). -/
def reconnectDelayMs (attempt : Nat) : Nat :=
  if attempt ≤ 1 then 1000
  else if attempt = 2 then 2000
  else if attempt = 3 then 4000
  else if attempt = 4 then 8000
  else 60000

/-- Modelled from the spec: the missing state transition at the start of
each reconnect attempt — phase becomes `reconnecting`. -/
def beginReconnectAttempt (s : StateRec) : StateRec :=
  { s with connection_status := "reconnecting" }

/-- Modelled from the spec: the missing state transition on a verified
successful reconnection — phase becomes `connected`, `last_error` is
cleared, `last_connected_at` is stamped. -/
def onReconnectSuccess (s : StateRec) (now : String) : StateRec :=
  { s with connection_status := "connected", last_error := none
           last_connected_at := now }

/-! ## Concrete sample values used in witnesses and counterexamples -/

/-- The row `storeEmail` builds from an email whose bound fields are all
present (each `getD ("")` collapses on a present field). -/
def rowOf (r : Email) : EmailRow :=
  { id := r.id.getD ("")
    thread_id := r.thread_id.getD ("")
    received_at := r.received_at.getD ("")
    downloaded_at := r.downloaded_at.getD ("")
    from_address := r.from_address.getD ("")
    to_address := r.to_address.getD ("")
    cc_address := r.cc_address
    subject := r.subject.getD ("")
    labels := r.labels.getD ("")
    body := r.body.getD ("") }

/-- A well-formed historical message keyed by its uid. -/
def histRec (i : Int) : Email :=
  { id := some (toString i), thread_id := some ("t"),
    received_at := some ("2025-11-01T10:00:00.000Z"),
    downloaded_at := some ("2025-11-01T10:00:05.000Z"),
    from_address := some ("alice@example.com"),
    to_address := some ("bob@example.com"), cc_address := none,
    subject := some ("hello"), labels := some ("[]"),
    body := some ("hello world") }

/-- A webhook payload that passes `validatePayload` yet has no
`to_address`. -/
def payloadNoTo : Email :=
  { id := some ("msg-1"), thread_id := some ("t-1"),
    received_at := some ("2025-11-01T00:00:00Z"),
    downloaded_at := some ("2025-11-01T00:00:01Z"),
    from_address := some ("a@x.com"), to_address := none, cc_address := none,
    subject := some ("s"), labels := some ("[]"), body := some ("b") }

/-- A webhook payload that passes `validatePayload` yet has no `labels`. -/
def payloadNoLabels : Email :=
  { id := some ("msg-2"), thread_id := some ("t-2"),
    received_at := some ("2025-11-01T00:00:00Z"),
    downloaded_at := some ("2025-11-01T00:00:01Z"),
    from_address := some ("a@x.com"), to_address := some ("b@x.com"),
    cc_address := none, subject := some ("s"), labels := none,
    body := some ("b") }

/-- A pre-migration row. -/
def oldSampleRow : OldRow :=
  { id := 7, received_at := "2024-01-01T00:00:00Z",
    downloaded_at := "2024-01-01T00:00:01Z",
    from_address := "a@x.com", to_address := "b@x.com", cc_address := none,
    subject := "old subject", labels := "[]", body := "old body" }

end Personai

namespace Personai

/-- C1: with an id not yet in the store and a fully bindable record, the first
`storeEmail` call returns `stored` (`true`) and appends exactly one row; the
second call with the same id returns `duplicate` (`false`), performs no
write, and the store holds exactly one row for that id whose fields are the
originally stored values. -/
theorem storeEmail_insert_twice_idempotent
    (db : List EmailRow) (e : Email) (i ra da fa ta s l b : String)
    (hid : e.id = some i)
    (hfresh : ∀ r ∈ db, r.id ≠ i)
    (hra : e.received_at = some ra) (hda : e.downloaded_at = some da)
    (hfa : e.from_address = some fa) (hta : e.to_address = some ta)
    (hs : e.subject = some s) (hl : e.labels = some l) (hb : e.body = some b) :
    storeEmail db e =
      Except.ok (true,
        db ++ [insertedRow i ra da fa ta e.cc_address s l b e.thread_id]) ∧
    storeEmail
        (db ++ [insertedRow i ra da fa ta e.cc_address s l b e.thread_id]) e =
      Except.ok (false,
        db ++ [insertedRow i ra da fa ta e.cc_address s l b e.thread_id]) ∧
    ((db ++ [insertedRow i ra da fa ta e.cc_address s l b e.thread_id]).filter
        (fun r => r.id = i)).length = 1 := by
  have hany : db.any (fun r => r.id = i) = false := by
    simp only [List.any_eq_false, decide_eq_true_eq]
    intro r hr
    exact hfresh r hr
  have hfilter : db.filter (fun r => r.id = i) = [] := by
    rw [List.filter_eq_nil_iff]
    intro r hr
    simpa using hfresh r hr
  refine ⟨?_, ?_, ?_⟩
  · simp only [storeEmail, hid, hany, hra, hda, hfa, hta, hs, hl, hb]
    rfl
  · have hany2 : (db ++ [insertedRow i ra da fa ta e.cc_address s l b e.thread_id]).any
        (fun r => r.id = i) = true := by
      simp [insertedRow]
    simp [storeEmail, hid, hany2]
  · rw [List.filter_append, hfilter]
    simp [insertedRow]

/-- Witness for C1 at a concrete input: fresh id in the empty store. -/
theorem storeEmail_insert_twice_idempotent_witness :
    storeEmail []
      { id := some ("m1"), thread_id := some ("t1"), received_at := some ("r"),
        downloaded_at := some ("d"), from_address := some ("a@x"),
        to_address := some ("b@x"), cc_address := none, subject := some ("s"),
        labels := some ("[]"), body := some ("body") } =
      Except.ok (true,
        [] ++ [insertedRow ("m1") ("r") ("d") ("a@x") ("b@x") none ("s") ("[]")
          ("body") (some ("t1"))]) := by
  have h := storeEmail_insert_twice_idempotent []
    { id := some ("m1"), thread_id := some ("t1"), received_at := some ("r"),
      downloaded_at := some ("d"), from_address := some ("a@x"),
      to_address := some ("b@x"), cc_address := none, subject := some ("s"),
      labels := some ("[]"), body := some ("body") }
    ("m1") ("r") ("d") ("a@x") ("b@x") ("s") ("[]") ("body")
    rfl (by intro r hr; simp at hr) rfl rfl rfl rfl rfl rfl rfl
  exact h.1

/-- C8: for every valid current record `s` and partial-fields argument `u`
whose merge validates, `update` computes exactly the merge of `u` over `s`
(every field of `s` not named in `u` is unchanged), and the file write goes
through a temporary sibling plus atomic rename, so at every crash point the
state file holds either the old record or the new record in full — and after
an uninterrupted update it holds exactly the merged record with the temp
file gone. -/
theorem updateState_merge_frame_atomic
    (s : StateRec) (u : StateUpdates) (tmp : Option StateRec) (cp : Nat)
    (hs : validateState s = Except.ok ())
    (hm : validateState (mergeState s u) = Except.ok ()) :
    updateStateE s u = Except.ok (mergeState s u) ∧
    ((u.last_uid = none → (mergeState s u).last_uid = s.last_uid) ∧
     (u.last_uid_received_at = none →
        (mergeState s u).last_uid_received_at = s.last_uid_received_at) ∧
     (u.last_connected_at = none →
        (mergeState s u).last_connected_at = s.last_connected_at) ∧
     (u.last_error = none → (mergeState s u).last_error = s.last_error) ∧
     (u.connection_status = none →
        (mergeState s u).connection_status = s.connection_status) ∧
     (u.last_id = none → (mergeState s u).last_id = s.last_id) ∧
     (u.last_id_received_at = none →
        (mergeState s u).last_id_received_at = s.last_id_received_at)) ∧
    ((updateStateFs ⟨some s, tmp⟩ u cp).mainFile = some s ∨
     (updateStateFs ⟨some s, tmp⟩ u cp).mainFile = some (mergeState s u)) ∧
    (2 ≤ cp →
      updateStateFs ⟨some s, tmp⟩ u cp =
        ⟨some (mergeState s u), none⟩) := by
  have hE : updateStateE s u = Except.ok (mergeState s u) := by
    simp [updateStateE, hs, hm]
  refine ⟨hE, ?_, ?_, ?_⟩
  · refine ⟨?_, ?_, ?_, ?_, ?_, ?_, ?_⟩ <;>
      (intro h; simp [mergeState, h])
  · rcases Nat.lt_or_ge cp 2 with hlt | hge
    · left
      interval_cases cp <;> simp [updateStateFs, hE, writeStateAtomicAt]
    · right
      have h0 : cp ≠ 0 := by omega
      have h1 : cp ≠ 1 := by omega
      simp [updateStateFs, hE, writeStateAtomicAt, h0, h1]
  · intro hge
    have h0 : cp ≠ 0 := by omega
    have h1 : cp ≠ 1 := by omega
    simp [updateStateFs, hE, writeStateAtomicAt, h0, h1]

/-- Witness for C8: the sentinel state updated with a stored message id, at
the crash-free point. -/
theorem updateState_merge_frame_atomic_witness :
    validateState INITIAL_STATE = Except.ok () ∧
    updateStateFs ⟨some INITIAL_STATE, none⟩
        { last_uid := none, last_uid_received_at := none
          last_connected_at := none, last_error := some none
          connection_status := none, last_id := some ("42")
          last_id_received_at := some ("2025-11-01T00:00:00.000Z") } 2 =
      ⟨some (mergeState INITIAL_STATE
        { last_uid := none, last_uid_received_at := none
          last_connected_at := none, last_error := some none
          connection_status := none, last_id := some ("42")
          last_id_received_at := some ("2025-11-01T00:00:00.000Z") }), none⟩ := by
  refine ⟨rfl, ?_⟩
  exact (updateState_merge_frame_atomic INITIAL_STATE
    { last_uid := none, last_uid_received_at := none
      last_connected_at := none, last_error := some none
      connection_status := none, last_id := some ("42")
      last_id_received_at := some ("2025-11-01T00:00:00.000Z") }
    none 2 rfl rfl).2.2.2 (by decide)

/-- Any failing step makes `processEmail` return `false` with the store and
state untouched (shared helper). -/
theorem processEmail_fail_aux (db : List EmailRow) (st : StateRec)
    (f : Except Unit Email) (sf : Bool)
    (h : (∃ u, f = Except.error u) ∨
         (∃ raw m, f = Except.ok raw ∧
            validateEmailRecord raw = Except.error m) ∨
         sf = true) :
    processEmail db st f sf = (false, db, st) := by
  rcases h with ⟨u, rfl⟩ | ⟨raw, m, rfl, hv⟩ | rfl
  · rfl
  · simp [processEmail, hv]
  · cases f with
    | error u => rfl
    | ok raw =>
      simp only [processEmail]
      cases hval : validateEmailRecord raw with
      | error m => simp
      | ok r => simp

/-- C10: when processing one message fails at any step — the fetch/parse
boundary erroring, `validateEmailRecord` throwing, or the store insert
throwing — `processEmail` propagates no exception: it returns `false`, and
both the store and the persisted state are left completely unchanged (in
particular `last_error`, `last_id` and `last_id_received_at` keep their
prior values; the state is only written after a successful store). -/
theorem processEmail_failure_no_side_effects (db : List EmailRow)
    (st : StateRec) (f : Except Unit Email) (sf : Bool)
    (h : (∃ u, f = Except.error u) ∨
         (∃ raw m, f = Except.ok raw ∧
            validateEmailRecord raw = Except.error m) ∨
         sf = true) :
    processEmail db st f sf = (false, db, st) :=
  processEmail_fail_aux db st f sf h

/-- Witness for C10: a fetch failure on the sentinel state and empty store. -/
theorem processEmail_failure_no_side_effects_witness :
    processEmail [] INITIAL_STATE (Except.error ()) false =
      (false, [], INITIAL_STATE) :=
  processEmail_failure_no_side_effects [] INITIAL_STATE (Except.error ())
    false (Or.inl ⟨(), rfl⟩)

/-- C4 (modelled from the spec; the reconnection logic is absent from the
source, its handlers being Phase-4 stubs): the reconnect delays for
attempts 1..5 are exactly 1s, 2s, 4s, 8s, 60s, stay 60s for every later
attempt with no bound on the attempt count, the phase is set to
`reconnecting` at the start of each attempt, and only a verified success
sets it back to `connected` with `last_error` cleared. -/
theorem reconnect_backoff_schedule :
    (reconnectDelayMs 1 = 1000 ∧ reconnectDelayMs 2 = 2000 ∧
     reconnectDelayMs 3 = 4000 ∧ reconnectDelayMs 4 = 8000 ∧
     reconnectDelayMs 5 = 60000) ∧
    (∀ n, 5 ≤ n → reconnectDelayMs n = 60000) ∧
    (∀ s, (beginReconnectAttempt s).connection_status = "reconnecting") ∧
    (∀ s now, (onReconnectSuccess s now).connection_status = "connected" ∧
      (onReconnectSuccess s now).last_error = none ∧
      (onReconnectSuccess s now).last_connected_at = now) := by
  refine ⟨⟨rfl, rfl, rfl, rfl, rfl⟩, ?_, fun s => rfl, fun s now => ⟨rfl, rfl, rfl⟩⟩
  intro n hn
  have h1 : ¬ (n ≤ 1) := by omega
  have h2 : ¬ (n = 2) := by omega
  have h3 : ¬ (n = 3) := by omega
  have h4 : ¬ (n = 4) := by omega
  simp [reconnectDelayMs, h1, h2, h3, h4]

/-- Witness for C4: the clamp holds at attempt 9, and the attempt-start
transition at the sentinel state. -/
theorem reconnect_backoff_schedule_witness :
    reconnectDelayMs 9 = 60000 ∧
    (beginReconnectAttempt INITIAL_STATE).connection_status = "reconnecting" :=
  ⟨reconnect_backoff_schedule.2.1 9 (by decide),
   reconnect_backoff_schedule.2.2.1 INITIAL_STATE⟩

/-- C5 is false on the code: `REQUIRED_FIELDS` omits `to_address` and
`labels`, so a payload missing either passes `validatePayload` and is not
rejected with a validation (client-error) classification; instead the
subsequent insert throws and the request fails as a `500 DATABASE_ERROR`
(contradicting the repository's own `webhook-api.md`, which lists both as
required). -/
theorem webhook_validation_omits_to_and_labels :
    (REQUIRED_FIELDS.contains ("to_address") = false ∧
     REQUIRED_FIELDS.contains ("labels") = false) ∧
    (validatePayload payloadNoTo = PayloadValidation.valid ∧
     handleWebhookPost [] payloadNoTo =
       ((500, WebhookResponse.failure (databaseErrCode)), [])) ∧
    (validatePayload payloadNoLabels = PayloadValidation.valid ∧
     handleWebhookPost [] payloadNoLabels =
       ((500, WebhookResponse.failure (databaseErrCode)), [])) := by
  refine ⟨⟨rfl, rfl⟩, ⟨?_, ?_⟩, ⟨?_, ?_⟩⟩ <;> rfl

/-- C7's failure-atomicity clause is false on the code: a failure in the
index recreation (stage 4, which the source runs after the `DROP`/`RENAME`
transaction has committed) still aborts startup, but the original layout is
already gone — the store is left in the new layout, not the original. -/
theorem migrate_index_failure_replaces_layout :
    (migrateSchemaRun [oldSampleRow] (some 4)).1 =
      Except.error (migrationFailedMsg) ∧
    (migrateSchemaRun [oldSampleRow] (some 4)).2 =
      MigLayout.newSchema [convertRow oldSampleRow] := by
  exact ⟨rfl, rfl⟩

/-- C7 as amended: a successful migration of M rows yields exactly M rows,
each preserving every original field value with the integer identifier
re-represented as text and an empty `thread_id`; the row-count parity is
validated before the old layout is replaced; a failure in any stage up to
and including the replacement transaction leaves the original `emails`
table untouched (at most a stray committed copy remains) and aborts
startup; a failure in the post-replacement index recreation also aborts
startup, but with the store already in the fully migrated new layout. -/
theorem migrate_parity_and_pre_replace_atomicity
    (old : List OldRow) (failAt : Option Nat) :
    (migrateSchemaRun old none =
      (Except.ok (), MigLayout.newSchema (old.map convertRow)) ∧
     (old.map convertRow).length = old.length ∧
     (∀ r ∈ old, (convertRow r).id = toString r.id ∧
        (convertRow r).thread_id = "" ∧
        (convertRow r).received_at = r.received_at ∧
        (convertRow r).downloaded_at = r.downloaded_at ∧
        (convertRow r).from_address = r.from_address ∧
        (convertRow r).to_address = r.to_address ∧
        (convertRow r).cc_address = r.cc_address ∧
        (convertRow r).subject = r.subject ∧
        (convertRow r).labels = r.labels ∧
        (convertRow r).body = r.body)) ∧
    ((failAt = some 1 ∨ failAt = some 2 ∨ failAt = some 3) →
      (migrateSchemaRun old failAt).1 = Except.error (migrationFailedMsg) ∧
      ∃ stray, (migrateSchemaRun old failAt).2 =
        MigLayout.oldSchema old stray) ∧
    (failAt = some 4 →
      (migrateSchemaRun old failAt).1 = Except.error (migrationFailedMsg) ∧
      (migrateSchemaRun old failAt).2 =
        MigLayout.newSchema (old.map convertRow)) := by
  refine ⟨⟨?_, by simp, ?_⟩, ?_, ?_⟩
  · simp [migrateSchemaRun]
  · intro r _
    exact ⟨rfl, rfl, rfl, rfl, rfl, rfl, rfl, rfl, rfl, rfl⟩
  · rintro (rfl | rfl | rfl)
    · exact ⟨rfl, ⟨none, rfl⟩⟩
    · refine ⟨?_, ⟨some (old.map convertRow), ?_⟩⟩ <;>
        simp [migrateSchemaRun]
    · refine ⟨?_, ⟨some (old.map convertRow), ?_⟩⟩ <;>
        simp [migrateSchemaRun]
  · rintro rfl
    refine ⟨?_, ?_⟩ <;> simp [migrateSchemaRun]

/-- Witness for C7: the amended theorem at one concrete pre-migration row,
with a failure injected in the replacement transaction. -/
theorem migrate_parity_and_pre_replace_atomicity_witness :
    (migrateSchemaRun [oldSampleRow] none =
      (Except.ok (), MigLayout.newSchema [convertRow oldSampleRow])) ∧
    ((migrateSchemaRun [oldSampleRow] (some 3)).1 =
      Except.error (migrationFailedMsg) ∧
     ∃ stray, (migrateSchemaRun [oldSampleRow] (some 3)).2 =
       MigLayout.oldSchema [oldSampleRow] stray) :=
  ⟨(migrate_parity_and_pre_replace_atomicity [oldSampleRow] none).1.1,
   (migrate_parity_and_pre_replace_atomicity [oldSampleRow] (some 3)).2.1
     (Or.inr (Or.inr rfl))⟩

/-- C3 is false on the code (the repository's own feature spec requires the
opposite): with the sentinel first-run state (`last_uid = 0`) the `mail`
handler filters `search(['ALL'])` down with `uid > 0`, which keeps every
message in the mailbox, so the entire history is enumerated and processed —
here a six-message historical mailbox ends up fully stored on first run. -/
theorem firstRun_enumerates_full_history :
    (∀ uids : List Int, (∀ u ∈ uids, 1 ≤ u) →
      uids.filter (fun u => decide (INITIAL_STATE.last_uid < u)) = uids) ∧
    countEmails (mailHandler [] INITIAL_STATE [1, 2, 3, 4, 5, 6]
      (fun i => Except.ok (histRec i)) (fun _ => false)).1 = 6 := by
  constructor
  · intro uids h
    rw [List.filter_eq_self]
    intro u hu
    have h1 := h u hu
    simp only [INITIAL_STATE, decide_eq_true_eq]
    omega
  · rfl

/-- Witness for C3: the full-mailbox filter identity at a concrete uid
list. -/
theorem firstRun_enumerates_full_history_witness :
    [2, 7].filter
      (fun u => decide (INITIAL_STATE.last_uid < u)) = ([2, 7] : List Int) :=
  firstRun_enumerates_full_history.1 [2, 7] (by decide)

/-- A record accepted by `validateEmailRecord` has a non-empty id, sender
and recipient, and every stored (`NOT NULL`) field present. -/
theorem validateEmailRecord_ok_shape (raw r : Email)
    (h : validateEmailRecord raw = Except.ok r) :
    (∃ i, r.id = some i ∧ i ≠ "") ∧ r.thread_id.isSome ∧
    (∃ fa, r.from_address = some fa ∧ fa ≠ "") ∧
    (∃ ta, r.to_address = some ta ∧ ta ≠ "") ∧
    r.subject.isSome ∧ r.body.isSome ∧ r.labels.isSome ∧
    (∃ ra, r.received_at = some ra ∧ ra ≠ "") ∧
    (∃ da, r.downloaded_at = some da ∧ da ≠ "") := by
  obtain ⟨rid, rtid, rra, rda, rfa, rta, rcc, rsu, rla, rbo⟩ := raw
  cases rid with
  | none => exact absurd h (by simp [validateEmailRecord])
  | some i =>
  by_cases hi : i = ""
  · exact absurd h (by simp [validateEmailRecord, hi])
  cases rfa with
  | none => exact absurd h (by simp [validateEmailRecord, hi])
  | some fa =>
  by_cases hfa : fa = ""
  · exact absurd h (by simp [validateEmailRecord, hi, hfa])
  cases rta with
  | none => exact absurd h (by simp [validateEmailRecord, hi, hfa])
  | some ta =>
  by_cases hta : ta = ""
  · exact absurd h (by simp [validateEmailRecord, hi, hfa, hta])
  cases rra with
  | none =>
    exact absurd h (by
      simp only [validateEmailRecord, hi, hfa, hta]
      simp
      split <;> simp)
  | some ra =>
  by_cases hra : ra = ""
  · exact absurd h (by
      simp only [validateEmailRecord, hi, hfa, hta, hra]
      simp
      split <;> simp)
  cases rda with
  | none =>
    exact absurd h (by
      simp only [validateEmailRecord, hi, hfa, hta, hra]
      simp
      split <;> simp)
  | some da =>
  by_cases hda : da = ""
  · exact absurd h (by
      simp only [validateEmailRecord, hi, hfa, hta, hra, hda]
      simp
      split <;> simp)
  simp only [validateEmailRecord, hi, hfa, hta, hra, hda, if_false] at h
  cases rla with
  | none =>
    simp only [] at h
    have hr := Except.ok.inj h
    subst hr
    simp_all
  | some l =>
    by_cases hl : l = ""
    · simp only [hl] at h
      simp at h
      have hr := h.symm
      subst hr
      simp_all
    · by_cases hj : isJsonArrayString l = true
      · simp only [hl, hj] at h
        simp [hl, hj] at h
        have hr := h.symm
        subst hr
        simp_all
      · exact absurd h (by
          simp only []
          simp [hl, hj])

/-- `storeEmail` on a fresh id with all bound fields present inserts exactly
`rowOf e`. -/
theorem storeEmail_ok_of_bindable (db : List EmailRow) (e : Email)
    (i : String) (hid : e.id = some i) (hfresh : ∀ row ∈ db, row.id ≠ i)
    (hb : storeBindable e = true) :
    storeEmail db e = Except.ok (true, db ++ [rowOf e]) := by
  simp only [storeBindable, Bool.and_eq_true, Option.isSome_iff_exists] at hb
  obtain ⟨⟨⟨⟨⟨⟨⟨ra, hra⟩, da, hda⟩, fa, hfa⟩, ta, hta⟩, su, hsu⟩, la, hla⟩,
    bo, hbo⟩ := hb
  have hany : db.any (fun row => row.id = i) = false := by
    simp only [List.any_eq_false, decide_eq_true_eq]
    intro row hrow
    exact hfresh row hrow
  simp [storeEmail, hid, hany, hra, hda, hfa, hta, hsu, hla, hbo,
    insertedRow, rowOf]

/-- Merging `processEmail`'s update over a state leaves every field checked
by `validateState` unchanged. -/
theorem validateState_merge_proc (st : StateRec) (r : Email) :
    validateState (mergeState st (procUpdates r)) = validateState st := by
  simp [validateState, mergeState, procUpdates]

/-- The success path of `processEmail`: a record that fetches, validates,
and stores fresh yields `true`, appends exactly one row, and persists the
merged state update. -/
theorem processEmail_success (db : List EmailRow) (st : StateRec)
    (raw r : Email) (i : String)
    (hval : validateEmailRecord raw = Except.ok r)
    (hid : r.id = some i) (hfresh : ∀ row ∈ db, row.id ≠ i)
    (hst : validateState st = Except.ok ()) :
    processEmail db st (Except.ok raw) false =
      (true, db ++ [rowOf r], mergeState st (procUpdates r)) := by
  have shape := validateEmailRecord_ok_shape raw r hval
  obtain ⟨-, htid, ⟨fa, hfa, -⟩, ⟨ta, hta, -⟩, hsu, hbo, hla,
    ⟨ra, hra, -⟩, ⟨da, hda, -⟩⟩ := shape
  have hb : storeBindable r = true := by
    simp [storeBindable, hra, hda, hfa, hta, hsu, hbo, hla]
  have hstore := storeEmail_ok_of_bindable db r i hid hfresh hb
  have hmv := validateState_merge_proc st r
  simp [processEmail, hval, hstore, updateStateE, hst, hmv]

/-- C2 as stated is false on the code: after a fresh store and sentinel
state process one arriving message, `count()` is 1 and `last_id` holds the
message id, but the persisted phase is still `disconnected` — nothing in
the source ever writes `connection_status: 'connected'` (that transition
belongs to the unimplemented Phase-4 reconnection work). -/
theorem mailbox_first_message_phase_counterexample :
    countEmails (mailHandler [] INITIAL_STATE [42]
      (fun _ => Except.ok (histRec 42)) (fun _ => false)).1 = 1 ∧
    (mailHandler [] INITIAL_STATE [42]
      (fun _ => Except.ok (histRec 42)) (fun _ => false)).2.last_id =
      some ("42") ∧
    (mailHandler [] INITIAL_STATE [42]
      (fun _ => Except.ok (histRec 42)) (fun _ => false)).2.connection_status =
      "disconnected" ∧
    ("disconnected" : String) ≠ "connected" := by
  refine ⟨rfl, rfl, rfl, by decide⟩

/-- C2 as amended: fresh store, first-run sentinel state, one arriving
message that fetches and validates; after the mailbox path processes it,
`count()` is 1, the persisted `last_id` is the message's id with its
observation timestamp and `last_error` cleared — and the persisted phase
remains `disconnected` (the `connected` transition is not implemented). -/
theorem mailbox_first_message_processed (uid : Int) (raw r : Email)
    (i d : String) (huid : 0 < uid)
    (hval : validateEmailRecord raw = Except.ok r)
    (hid : r.id = some i) (hd : r.downloaded_at = some d) :
    countEmails (mailHandler [] INITIAL_STATE [uid]
      (fun _ => Except.ok raw) (fun _ => false)).1 = 1 ∧
    (mailHandler [] INITIAL_STATE [uid]
      (fun _ => Except.ok raw) (fun _ => false)).2.last_id = some i ∧
    (mailHandler [] INITIAL_STATE [uid]
      (fun _ => Except.ok raw) (fun _ => false)).2.last_id_received_at =
      some d ∧
    (mailHandler [] INITIAL_STATE [uid]
      (fun _ => Except.ok raw) (fun _ => false)).2.last_error = none ∧
    (mailHandler [] INITIAL_STATE [uid]
      (fun _ => Except.ok raw) (fun _ => false)).2.connection_status =
      "disconnected" := by
  have hproc := processEmail_success [] INITIAL_STATE raw r i hval hid
    (by intro row hrow; simp at hrow) rfl
  have hfil : ([uid].filter (fun u => decide (INITIAL_STATE.last_uid < u)))
      = [uid] := by
    simp [INITIAL_STATE]
    omega
  simp only [mailHandler, hfil]
  simp only [show validateState INITIAL_STATE = Except.ok () from rfl]
  simp only [List.map_cons, List.map_nil, processBatch, hproc]
  refine ⟨rfl, ?_, ?_, rfl, rfl⟩
  · simp [mergeState, procUpdates, hid]
  · simp [mergeState, procUpdates, hd]

/-- Witness for C2's amended theorem: one concrete message at uid 1. -/
theorem mailbox_first_message_processed_witness :
    countEmails (mailHandler [] INITIAL_STATE [1]
      (fun _ => Except.ok (histRec 1)) (fun _ => false)).1 = 1 ∧
    (mailHandler [] INITIAL_STATE [1]
      (fun _ => Except.ok (histRec 1)) (fun _ => false)).2.last_id =
      some ("1") := by
  have h := mailbox_first_message_processed 1 (histRec 1) (histRec 1)
    ("1") ("2025-11-01T10:00:05.000Z") (by decide) rfl rfl rfl
  exact ⟨h.1, h.2.1⟩

/-- A failing candidate in the middle of a batch is a no-op: the batch
result is the result of the batch without it (shared helper). -/
theorem processBatch_fail_middle (pre : List (Except Unit Email × Bool)) :
    ∀ (db : List EmailRow) (st : StateRec)
      (post : List (Except Unit Email × Bool))
      (f : Except Unit Email) (sf : Bool),
    ((∃ u, f = Except.error u) ∨
     (∃ raw m, f = Except.ok raw ∧
        validateEmailRecord raw = Except.error m) ∨ sf = true) →
    processBatch db st (pre ++ (f, sf) :: post) =
      processBatch db st (pre ++ post) := by
  induction pre with
  | nil =>
    intro db st post f sf h
    simp [processBatch, processEmail_fail_aux db st f sf h]
  | cons x xs ih =>
    intro db st post f sf h
    obtain ⟨xf, xsf⟩ := x
    simp only [List.cons_append, processBatch]
    exact ih _ _ post f sf h

/-- A batch of valid, fresh, pairwise-distinct records is stored in full,
and the resulting state stays valid (shared helper). -/
theorem processBatch_stores_all (recs : List Email) :
    ∀ (db : List EmailRow) (st : StateRec),
    validateState st = Except.ok () →
    (∀ r ∈ recs, validateEmailRecord r = Except.ok r) →
    (∀ r ∈ recs, ∀ row ∈ db, row.id ≠ r.id.getD ("")) →
    recs.Pairwise (fun a b => a.id.getD ("") ≠ b.id.getD ("")) →
    (processBatch db st (recs.map (fun r => (Except.ok r, false)))).1 =
      db ++ recs.map rowOf ∧
    validateState
      (processBatch db st (recs.map (fun r => (Except.ok r, false)))).2 =
      Except.ok () := by
  induction recs with
  | nil =>
    intro db st hst _ _ _
    simpa [processBatch] using hst
  | cons r rest ih =>
    intro db st hst hval hfresh hpw
    have hvr := hval r (List.mem_cons_self r rest)
    obtain ⟨⟨i, hid, hi⟩, -, -, -, -, -, -, -, -⟩ :=
      validateEmailRecord_ok_shape r r hvr
    have hfr : ∀ row ∈ db, row.id ≠ i := by
      intro row hrow
      have h := hfresh r (List.mem_cons_self r rest) row hrow
      simpa [hid] using h
    have hproc := processEmail_success db st r r i hvr hid hfr hst
    have hst' : validateState (mergeState st (procUpdates r)) =
        Except.ok () := by
      rw [validateState_merge_proc]
      exact hst
    have hfresh' : ∀ r2 ∈ rest, ∀ row ∈ db ++ [rowOf r],
        row.id ≠ r2.id.getD ("") := by
      intro r2 hr2 row hrow
      rcases List.mem_append.mp hrow with hdb | hone
      · exact hfresh r2 (List.mem_cons_of_mem r hr2) row hdb
      · have hrw : row = rowOf r := by simpa using hone
        subst hrw
        have hne := (List.pairwise_cons.mp hpw).1 r2 hr2
        simpa [rowOf, hid] using hne
    have hrest := ih (db ++ [rowOf r]) (mergeState st (procUpdates r)) hst'
      (fun r2 h2 => hval r2 (List.mem_cons_of_mem r h2)) hfresh'
      (List.pairwise_cons.mp hpw).2
    rw [List.map_cons]
    simp only [processBatch, hproc]
    refine ⟨?_, hrest.2⟩
    rw [hrest.1]
    simp

/-- C9: a per-message failure (fetch/parse error, validation error, or a
throwing insert) never aborts the batch — the failing candidate is a no-op
and every remaining candidate is still processed; a batch of valid fresh
messages with one malformed candidate anywhere in it therefore stores all
the valid ones. -/
theorem batch_skip_and_continue :
    (∀ (db : List EmailRow) (st : StateRec)
       (pre post : List (Except Unit Email × Bool))
       (f : Except Unit Email) (sf : Bool),
       ((∃ u, f = Except.error u) ∨
        (∃ raw m, f = Except.ok raw ∧
           validateEmailRecord raw = Except.error m) ∨ sf = true) →
       processBatch db st (pre ++ (f, sf) :: post) =
         processBatch db st (pre ++ post)) ∧
    (∀ (recs : List Email) (db : List EmailRow) (st : StateRec),
       validateState st = Except.ok () →
       (∀ r ∈ recs, validateEmailRecord r = Except.ok r) →
       (∀ r ∈ recs, ∀ row ∈ db, row.id ≠ r.id.getD ("")) →
       recs.Pairwise (fun a b => a.id.getD ("") ≠ b.id.getD ("")) →
       (processBatch db st (recs.map (fun r => (Except.ok r, false)))).1 =
         db ++ recs.map rowOf) :=
  ⟨fun db st pre post f sf h => processBatch_fail_middle pre db st post f sf h,
   fun recs db st hst hval hfresh hpw =>
     (processBatch_stores_all recs db st hst hval hfresh hpw).1⟩

/-- Witness for C9: a malformed candidate is dropped from a concrete batch,
and a concrete valid singleton batch is stored. -/
theorem batch_skip_and_continue_witness :
    processBatch [] INITIAL_STATE
      ([] ++ (Except.error (), false) :: [(Except.ok (histRec 3), false)]) =
      processBatch [] INITIAL_STATE ([] ++ [(Except.ok (histRec 3), false)]) ∧
    (processBatch [] INITIAL_STATE
      ([histRec 3].map (fun r => (Except.ok r, false)))).1 =
      [] ++ [histRec 3].map rowOf := by
  refine ⟨batch_skip_and_continue.1 [] INITIAL_STATE []
    [(Except.ok (histRec 3), false)] (Except.error ()) false
    (Or.inl ⟨(), rfl⟩), ?_⟩
  exact batch_skip_and_continue.2 [histRec 3] [] INITIAL_STATE rfl
    (by intro r hr; rw [List.mem_singleton] at hr; subst hr; rfl)
    (by intro r hr row hrow; simp at hrow)
    (List.pairwise_singleton _ _)

/-- A payload `validatePayload` accepts has none of the validated required
fields missing (shared helper). -/
theorem validatePayload_valid_not_missing (p : Email) (name : String)
    (hmem : name ∈ REQUIRED_FIELDS)
    (h : validatePayload p = PayloadValidation.valid) :
    isMissingVal (getField p name) = false := by
  by_cases hemp : (missingFields p).isEmpty
  · have hnil : missingFields p = [] := by
      simpa [List.isEmpty_iff] using hemp
    have := List.filter_eq_nil_iff.mp hnil name hmem
    simpa using this
  · exact absurd h (by simp [validatePayload, hemp])

/-- C6: two valid payloads with the same id and different bodies — the
first request answers `200` with action `stored` and persists body A; the
second answers `200` with action `skipped`, echoes the same id, performs no
write, and the stored row still carries body A. -/
theorem webhook_same_id_twice_keeps_first_body
    (db : List EmailRow) (p1 p2 : Email) (i bA bB : String)
    (h1 : validatePayload p1 = PayloadValidation.valid)
    (h2 : validatePayload p2 = PayloadValidation.valid)
    (hid1 : p1.id = some i) (hid2 : p2.id = some i)
    (hfresh : ∀ row ∈ db, row.id ≠ i)
    (hb : storeBindable p1 = true)
    (hbodyA : p1.body = some bA) (hbodyB : p2.body = some bB)
    (hne : bA ≠ bB) :
    handleWebhookPost db p1 =
      ((200, WebhookResponse.success (storedAction) (some i)),
        db ++ [rowOf p1]) ∧
    handleWebhookPost (db ++ [rowOf p1]) p2 =
      ((200, WebhookResponse.success (skippedAction) (some i)),
        db ++ [rowOf p1]) ∧
    getEmailById (db ++ [rowOf p1]) i = some (rowOf p1) ∧
    (rowOf p1).body = bA ∧ bA ≠ bB := by
  have hi : i ≠ "" := by
    have hm := validatePayload_valid_not_missing p1 ("id")
      (by simp [REQUIRED_FIELDS]) h1
    rw [show getField p1 ("id") = p1.id from rfl, hid1] at hm
    intro hieq
    subst hieq
    simp [isMissingVal] at hm
  have hstore := storeEmail_ok_of_bindable db p1 i hid1 hfresh hb
  have hfind : db.find? (fun row => row.id = i) = none := by
    rw [List.find?_eq_none]
    intro row hrow
    simpa using hfresh row hrow
  refine ⟨?_, ?_, ?_, ?_, hne⟩
  · simp [handleWebhookPost, h1, hstore, jsIdEcho, hid1, hi]
  · have hany : (db ++ [rowOf p1]).any (fun row => row.id = i) = true := by
      simp [rowOf, hid1]
    simp [handleWebhookPost, h2, storeEmail, hid2, hany, jsIdEcho, hi]
  · simp [getEmailById, List.find?_append, hfind, rowOf, hid1]
  · simp [rowOf, hbodyA]

/-- Witness for C6: the same id posted twice with different bodies. -/
theorem webhook_same_id_twice_keeps_first_body_witness :
    handleWebhookPost [] (histRec 9) =
      ((200, WebhookResponse.success (storedAction) (some ("9"))),
        [] ++ [rowOf (histRec 9)]) ∧
    handleWebhookPost ([] ++ [rowOf (histRec 9)])
        { histRec 9 with body := some ("different body") } =
      ((200, WebhookResponse.success (skippedAction) (some ("9"))),
        [] ++ [rowOf (histRec 9)]) := by
  have h := webhook_same_id_twice_keeps_first_body []
    (histRec 9) ({ histRec 9 with body := some ("different body") })
    ("9") ("hello world") ("different body")
    rfl rfl rfl rfl
    (by intro row hrow; simp at hrow) rfl rfl rfl (by decide)
  exact ⟨h.1, h.2.1⟩

end Personai
